import Mathlib

/-!
Shallow embedding of the log-context enrichment pipeline of the
`log_manage_system` repository (two example applications:
`examples/fastapi-integration/main.py` and
`examples/multi-app-integration/main.py`).

The embedded operations are:
* `add_trace_info`  — the fastapi-app structlog processor;
* `add_otel_context` — the multi-app structlog processor;
* `call_external_service` — the multi-app simulated external call;
* the OTLP batch-processor configuration constants.

A log record (`event_dict`) is modelled as an association list from field
name to value, with Python-dict assignment semantics (`setKey`): assigning
to an existing key replaces its value in place, otherwise the pair is
appended.  The ambient "current span" lookup is modelled as an
`Option Span` argument; `none` models the lookup yielding no span.
-/

/-- A value stored in a log record: a string or an integer field. -/
inductive Value where
  | str : String → Value
  | num : Nat → Value
deriving DecidableEq, Repr

/-- The span context carried by a span: `trace_id`, `span_id`, `trace_flags`
as returned by `span.get_span_context()`. -/
structure SpanContext where
  trace_id : Nat
  span_id : Nat
  trace_flags : Nat
deriving DecidableEq, Repr

/-- A span as the enrichers observe it: its context (`get_span_context`)
and whether it is recording (`is_recording`). -/
structure Span where
  ctx : SpanContext
  recording : Bool
deriving DecidableEq, Repr

/-- A log record: mapping of field name to value (Python `dict`). -/
abbrev Record := List (String × Value)

/-- Python dict assignment `d[k] = v`: replace the value of the first
occurrence of `k` in place, else append the pair at the end. -/
def setKey : Record → String → Value → Record
  | [], k, v => [(k, v)]
  | (k', v') :: rest, k, v =>
      if k' = k then (k, v) :: rest else (k', v') :: setKey rest k v

/-- The keys of a record, in order. -/
def keys (r : Record) : List String := r.map Prod.fst

/-- Lowercase hexadecimal digits of `n` (most significant first),
with `0` rendered as `"0"`. -/
def hexDigits (n : Nat) : List Char :=
  let ds := ((Nat.digits 16 n).map Nat.digitChar).reverse
  if ds.isEmpty then ['0'] else ds

/-- Python `format(n, f"0{width}x")`: lowercase hex, zero-padded on the
left to at least `width` characters. -/
def formatHex (n width : Nat) : String :=
  let ds := hexDigits n
  String.mk (List.replicate (width - ds.length) '0' ++ ds)

/-- `add_trace_info(logger, method_name, event_dict)` from
`examples/fastapi-integration/main.py`: if a current span exists and its
context has a non-zero `trace_id`, set `trace_id` (032x) and `span_id`
(016x) in the record; otherwise return the record unchanged.  Note: this
variant does not consult `is_recording`. -/
def add_trace_info (span : Option Span) (event_dict : Record) : Record :=
  match span with
  | none => event_dict
  | some s =>
      let span_context := s.ctx
      if span_context.trace_id ≠ 0 then
        setKey (setKey event_dict "trace_id"
            (Value.str (formatHex span_context.trace_id 32)))
          "span_id" (Value.str (formatHex span_context.span_id 16))
      else event_dict

/-- `add_otel_context(logger, method_name, event_dict)` from
`examples/multi-app-integration/main.py`: if a current span exists and is
recording and its context has a non-zero `trace_id`, set `trace_id`
(032x), `span_id` (016x) and `trace_flags` (raw) in the record; otherwise
return the record unchanged. -/
def add_otel_context (span : Option Span) (event_dict : Record) : Record :=
  match span with
  | none => event_dict
  | some s =>
      if s.recording then
        let span_context := s.ctx
        if span_context.trace_id ≠ 0 then
          setKey (setKey (setKey event_dict "trace_id"
                (Value.str (formatHex span_context.trace_id 32)))
              "span_id" (Value.str (formatHex span_context.span_id 16)))
            "trace_flags" (Value.num span_context.trace_flags)
        else event_dict
      else event_dict

-- Basic lemmas about `setKey`.

theorem lookup_setKey_self (r : Record) (k : String) (v : Value) :
    List.lookup k (setKey r k v) = some v := by
  induction r with
  | nil => simp [setKey, List.lookup]
  | cons p rest ih =>
      obtain ⟨k', v'⟩ := p
      by_cases h : k' = k
      · simp [setKey, h, List.lookup]
      · simp only [setKey, if_neg h, List.lookup]
        have : (k == k') = false := by
          simp [beq_iff_eq]
          exact fun hkk => h hkk.symm
        simp [this, ih]

theorem lookup_setKey_ne (r : Record) (k k' : String) (v : Value)
    (h : k' ≠ k) : List.lookup k' (setKey r k v) = List.lookup k' r := by
  induction r with
  | nil =>
      have hb : (k' == k) = false := beq_eq_false_iff_ne.mpr h
      simp [setKey, List.lookup, hb]
  | cons p rest ih =>
      obtain ⟨k₀, v₀⟩ := p
      by_cases hk : k₀ = k
      · subst hk
        have hb : (k' == k₀) = false := beq_eq_false_iff_ne.mpr h
        simp [setKey, List.lookup, hb]
      · simp only [setKey, if_neg hk, List.lookup]
        by_cases hk' : k' = k₀
        · subst hk'
          simp
        · have hb : (k' == k₀) = false := beq_eq_false_iff_ne.mpr hk'
          simp [hb, ih]

theorem mem_keys_setKey_of_mem (r : Record) (k k' : String) (v : Value)
    (h : k' ∈ keys r) : k' ∈ keys (setKey r k v) := by
  induction r with
  | nil => simp [keys] at h
  | cons p rest ih =>
      obtain ⟨k₀, v₀⟩ := p
      by_cases hk : k₀ = k
      · subst hk
        simp only [keys, List.map_cons, List.mem_cons] at h
        simp only [setKey, eq_self_iff_true, if_true, keys, List.map_cons,
          List.mem_cons]
        exact h
      · simp only [keys, List.map_cons, List.mem_cons] at h
        simp only [setKey, if_neg hk, keys, List.map_cons, List.mem_cons]
        rcases h with h | h
        · exact Or.inl h
        · exact Or.inr (ih h)

theorem mem_keys_setKey_self (r : Record) (k : String) (v : Value) :
    k ∈ keys (setKey r k v) := by
  induction r with
  | nil => simp [setKey, keys]
  | cons p rest ih =>
      obtain ⟨k₀, v₀⟩ := p
      by_cases hk : k₀ = k
      · simp [setKey, hk, keys]
      · simp only [setKey, if_neg hk, keys, List.map_cons]
        exact List.mem_cons_of_mem _ ih

theorem mem_keys_of_mem_keys_setKey (r : Record) (k k' : String) (v : Value) :
    k' ∈ keys (setKey r k v) → k' = k ∨ k' ∈ keys r := by
  induction r with
  | nil =>
      intro h
      simp [setKey, keys] at h
      exact Or.inl h
  | cons p rest ih =>
      obtain ⟨k₀, v₀⟩ := p
      intro h
      by_cases hk : k₀ = k
      · subst hk
        simp only [setKey, eq_self_iff_true, if_true, keys, List.map_cons,
          List.mem_cons] at h
        simp only [keys, List.map_cons, List.mem_cons]
        exact h.imp (fun hh => hh) (fun hh => Or.inr hh)
      · simp only [setKey, if_neg hk, keys, List.map_cons, List.mem_cons] at h
        simp only [keys, List.map_cons, List.mem_cons]
        rcases h with h | h
        · exact Or.inr (Or.inl h)
        · rcases ih h with h' | h'
          · exact Or.inl h'
          · exact Or.inr (Or.inr h')

theorem setKey_of_lookup_eq (r : Record) (k : String) (v : Value)
    (h : List.lookup k r = some v) : setKey r k v = r := by
  induction r with
  | nil => simp [List.lookup] at h
  | cons p rest ih =>
      obtain ⟨k₀, v₀⟩ := p
      by_cases hk : k = k₀
      · subst hk
        simp only [List.lookup, beq_self_eq_true, Option.some.injEq] at h
        simp [setKey, h]
      · have hb : (k == k₀) = false := beq_eq_false_iff_ne.mpr hk
        simp only [List.lookup, hb] at h
        have hk' : ¬(k₀ = k) := fun hh => hk hh.symm
        simp [setKey, hk', ih h]

-- Properties of the hexadecimal rendering.

/-- The list of lowercase hexadecimal digit characters. -/
def lowerHexChars : List Char :=
  String.data "0123456789abcdef"

theorem digitChar_mem_lowerHexChars (d : Nat) (hd : d < 16) :
    Nat.digitChar d ∈ lowerHexChars := by
  revert hd
  revert d
  decide

theorem hexDigits_length_le (n w : Nat) (hw : 0 < w) (hn : n < 16 ^ w) :
    (hexDigits n).length ≤ w := by
  by_cases h0 : n = 0
  · subst h0
    simp [hexDigits]
    exact hw
  · have hne : ((Nat.digits 16 n).map Nat.digitChar).reverse.isEmpty = false := by
      simp [List.isEmpty_iff, Nat.digits_ne_nil_iff_ne_zero.mpr h0]
    have hlen : ((Nat.digits 16 n).map Nat.digitChar).reverse.length =
        (Nat.digits 16 n).length := by simp
    have hd : (Nat.digits 16 n).length = Nat.log 16 n + 1 :=
      Nat.digits_len 16 n (by norm_num) h0
    have hlog : Nat.log 16 n < w :=
      (Nat.lt_pow_iff_log_lt (by norm_num) h0).mp hn
    simp only [hexDigits, hne, Bool.false_eq_true, if_false]
    omega

theorem formatHex_length (n w : Nat) (hw : 0 < w) (hn : n < 16 ^ w) :
    (formatHex n w).length = w := by
  have hle : (hexDigits n).length ≤ w := hexDigits_length_le n w hw hn
  simp only [formatHex, String.mk]
  show (List.replicate (w - (hexDigits n).length) '0' ++ hexDigits n).length = w
  simp [List.length_append, List.length_replicate]
  omega

theorem formatHex_chars (n w : Nat) :
    ∀ c ∈ (formatHex n w).data, c ∈ lowerHexChars := by
  intro c hc
  simp only [formatHex, String.mk] at hc
  have hc' : c ∈ List.replicate (w - (hexDigits n).length) '0' ++ hexDigits n := hc
  rcases List.mem_append.mp hc' with h | h
  · have := List.eq_of_mem_replicate h
    subst this
    decide
  · simp only [hexDigits] at h
    by_cases he : ((Nat.digits 16 n).map Nat.digitChar).reverse.isEmpty = true
    · simp only [he, if_true] at h
      simp at h
      subst h
      decide
    · simp only [he, if_false] at h
      rcases List.mem_map.mp (List.mem_reverse.mp h) with ⟨d, hd, hdc⟩
      subst hdc
      exact digitChar_mem_lowerHexChars d (Nat.digits_lt_base (by norm_num) hd)

-- Case-analysis lemmas for the two enrichers.

theorem add_trace_info_none (r : Record) : add_trace_info none r = r := rfl

theorem add_trace_info_zero (s : Span) (r : Record)
    (h : s.ctx.trace_id = 0) : add_trace_info (some s) r = r := by
  simp [add_trace_info, h]

theorem add_trace_info_active (s : Span) (r : Record)
    (h : s.ctx.trace_id ≠ 0) :
    add_trace_info (some s) r =
      setKey (setKey r "trace_id" (Value.str (formatHex s.ctx.trace_id 32)))
        "span_id" (Value.str (formatHex s.ctx.span_id 16)) := by
  simp [add_trace_info, h]

theorem add_otel_context_none (r : Record) : add_otel_context none r = r := rfl

theorem add_otel_context_not_recording (s : Span) (r : Record)
    (h : s.recording = false) : add_otel_context (some s) r = r := by
  simp [add_otel_context, h]

theorem add_otel_context_zero (s : Span) (r : Record)
    (h : s.ctx.trace_id = 0) : add_otel_context (some s) r = r := by
  cases hrec : s.recording <;> simp [add_otel_context, hrec, h]

theorem add_otel_context_active (s : Span) (r : Record)
    (hrec : s.recording = true) (h : s.ctx.trace_id ≠ 0) :
    add_otel_context (some s) r =
      setKey (setKey (setKey r "trace_id"
            (Value.str (formatHex s.ctx.trace_id 32)))
          "span_id" (Value.str (formatHex s.ctx.span_id 16)))
        "trace_flags" (Value.num s.ctx.trace_flags) := by
  simp [add_otel_context, hrec, h]

-- Claim theorems.

/-- C1 counterexample: the fastapi enricher `add_trace_info` enriches even
when the active span is NOT recording, as long as its trace id is non-zero.
The claim says the record is returned unchanged unless a recording span is
active; at this concrete input (a non-recording span with trace id 1) the
record comes back with a `trace_id` field added, so the claim as stated is
false for `add_trace_info`. -/
theorem add_trace_info_enriches_nonrecording_span :
    (Span.mk (SpanContext.mk 1 2 0) false).recording = false ∧
    "trace_id" ∈ keys
      (add_trace_info (some (Span.mk (SpanContext.mk 1 2 0) false)) []) ∧
    add_trace_info (some (Span.mk (SpanContext.mk 1 2 0) false)) [] ≠ [] := by
  refine ⟨rfl, ?_, ?_⟩
  · rw [add_trace_info_active _ _ (by decide)]
    exact mem_keys_setKey_of_mem _ _ _ _ (mem_keys_setKey_self _ _ _)
  · rw [add_trace_info_active _ _ (by decide)]
    intro h
    have := mem_keys_setKey_self
      (setKey [] "trace_id" (Value.str (formatHex 1 32))) "span_id"
      (Value.str (formatHex 2 16))
    rw [h] at this
    simp [keys] at this

/-- C1 (amended): `add_otel_context` adds the trace fields exactly when a
recording span with non-zero trace id is active and returns the record
unchanged otherwise; `add_trace_info` adds them exactly when an active span
has non-zero trace id, whether or not it is recording, and returns the
record unchanged otherwise. -/
theorem enrichment_condition_per_variant (sp : Option Span) (r : Record) :
    (∀ s : Span, sp = some s → s.ctx.trace_id ≠ 0 →
      add_trace_info sp r =
        setKey (setKey r "trace_id" (Value.str (formatHex s.ctx.trace_id 32)))
          "span_id" (Value.str (formatHex s.ctx.span_id 16))) ∧
    ((sp = none ∨ ∃ s : Span, sp = some s ∧ s.ctx.trace_id = 0) →
      add_trace_info sp r = r) ∧
    (∀ s : Span, sp = some s → s.recording = true → s.ctx.trace_id ≠ 0 →
      add_otel_context sp r =
        setKey (setKey (setKey r "trace_id"
              (Value.str (formatHex s.ctx.trace_id 32)))
            "span_id" (Value.str (formatHex s.ctx.span_id 16)))
          "trace_flags" (Value.num s.ctx.trace_flags)) ∧
    ((sp = none ∨ ∃ s : Span, sp = some s ∧
        (s.recording = false ∨ s.ctx.trace_id = 0)) →
      add_otel_context sp r = r) := by
  refine ⟨?_, ?_, ?_, ?_⟩
  · intro s hsp h
    subst hsp
    exact add_trace_info_active s r h
  · intro hsp
    rcases hsp with hsp | ⟨s, hsp, h0⟩
    · subst hsp
      exact add_trace_info_none r
    · subst hsp
      exact add_trace_info_zero s r h0
  · intro s hsp hrec h
    subst hsp
    exact add_otel_context_active s r hrec h
  · intro hsp
    rcases hsp with hsp | ⟨s, hsp, hc⟩
    · subst hsp
      exact add_otel_context_none r
    · subst hsp
      rcases hc with hc | hc
      · exact add_otel_context_not_recording s r hc
      · exact add_otel_context_zero s r hc

/-- C1 witness: the amended theorem applied at a concrete non-recording
span, showing `add_otel_context` leaves the record unchanged there. -/
theorem enrichment_condition_per_variant_witness :
    add_otel_context (some (Span.mk (SpanContext.mk 1 2 0) false)) [] = [] :=
  (enrichment_condition_per_variant
      (some (Span.mk (SpanContext.mk 1 2 0) false)) []).2.2.2
    (Or.inr ⟨Span.mk (SpanContext.mk 1 2 0) false, rfl, Or.inl rfl⟩)

/-- C3 counterexample: with no active span the enrichers return the record
unchanged, so a caller-supplied `trace_id` field already present in the
record survives; the produced record then does contain a `trace_id` field,
contradicting the claim as stated (which quantifies over every log call). -/
theorem stale_trace_id_survives_without_span :
    "trace_id" ∈ keys
      (add_trace_info none [("trace_id", Value.str "stale")]) ∧
    "trace_id" ∈ keys
      (add_otel_context none [("trace_id", Value.str "stale")]) := by
  constructor
  · rw [add_trace_info_none]
    simp [keys]
  · rw [add_otel_context_none]
    simp [keys]

/-- C3 (amended): for a log call made with no active span (ambient lookup
yields no span, or a span context with trace id 0), the enricher output
contains neither `trace_id` nor `span_id`, provided the input record did
not already contain those fields. -/
theorem no_span_output_has_no_ids (sp : Option Span) (r : Record)
    (hsp : sp = none ∨ ∃ s : Span, sp = some s ∧ s.ctx.trace_id = 0)
    (ht : "trace_id" ∉ keys r) (hs : "span_id" ∉ keys r) :
    "trace_id" ∉ keys (add_trace_info sp r) ∧
    "span_id" ∉ keys (add_trace_info sp r) ∧
    "trace_id" ∉ keys (add_otel_context sp r) ∧
    "span_id" ∉ keys (add_otel_context sp r) := by
  have h1 : add_trace_info sp r = r := by
    rcases hsp with hsp | ⟨s, hsp, h0⟩
    · subst hsp
      exact add_trace_info_none r
    · subst hsp
      exact add_trace_info_zero s r h0
  have h2 : add_otel_context sp r = r := by
    rcases hsp with hsp | ⟨s, hsp, h0⟩
    · subst hsp
      exact add_otel_context_none r
    · subst hsp
      exact add_otel_context_zero s r h0
  rw [h1, h2]
  exact ⟨ht, hs, ht, hs⟩

/-- C3 witness: the amended theorem applied with no span and a record
holding only an `event` field. -/
theorem no_span_output_has_no_ids_witness :
    "trace_id" ∉ keys (add_trace_info none [("event", Value.str "hello")]) :=
  (no_span_output_has_no_ids none [("event", Value.str "hello")]
    (Or.inl rfl) (by simp [keys]) (by simp [keys])).1

/-- C4: the enrichers are total — for every ambient span state and every
record they produce a record — and the absence of an active span is a
silent no-op: with no current span both enrichers return the input record
unchanged.  (In this embedding both processors are total functions; no
execution path raises.) -/
theorem enrichers_total_and_silent_noop (sp : Option Span) (r : Record) :
    (∃ out : Record, add_trace_info sp r = out) ∧
    (∃ out : Record, add_otel_context sp r = out) ∧
    add_trace_info none r = r ∧
    add_otel_context none r = r :=
  ⟨⟨add_trace_info sp r, rfl⟩, ⟨add_otel_context sp r, rfl⟩, rfl, rfl⟩

/-- C2: while a recording span with non-zero trace id is active, both
enrichers store under `trace_id` the 32-character lowercase-hex rendering
of the span's trace identifier and under `span_id` the 16-character
lowercase-hex rendering of its span identifier (identifiers being 128-bit
and 64-bit respectively). -/
theorem enriched_ids_match_active_span (s : Span) (r : Record)
    (hrec : s.recording = true) (h : s.ctx.trace_id ≠ 0)
    (htb : s.ctx.trace_id < 2 ^ 128) (hsb : s.ctx.span_id < 2 ^ 64) :
    List.lookup "trace_id" (add_trace_info (some s) r) =
      some (Value.str (formatHex s.ctx.trace_id 32)) ∧
    List.lookup "span_id" (add_trace_info (some s) r) =
      some (Value.str (formatHex s.ctx.span_id 16)) ∧
    List.lookup "trace_id" (add_otel_context (some s) r) =
      some (Value.str (formatHex s.ctx.trace_id 32)) ∧
    List.lookup "span_id" (add_otel_context (some s) r) =
      some (Value.str (formatHex s.ctx.span_id 16)) ∧
    (formatHex s.ctx.trace_id 32).length = 32 ∧
    (formatHex s.ctx.span_id 16).length = 16 ∧
    (∀ c ∈ (formatHex s.ctx.trace_id 32).data, c ∈ lowerHexChars) ∧
    (∀ c ∈ (formatHex s.ctx.span_id 16).data, c ∈ lowerHexChars) := by
  have htb' : s.ctx.trace_id < 16 ^ 32 := by
    have hpow : (16 : ℕ) ^ 32 = 2 ^ 128 := by norm_num
    rw [hpow]
    exact htb
  have hsb' : s.ctx.span_id < 16 ^ 16 := by
    have hpow : (16 : ℕ) ^ 16 = 2 ^ 64 := by norm_num
    rw [hpow]
    exact hsb
  rw [add_trace_info_active s r h, add_otel_context_active s r hrec h]
  refine ⟨?_, ?_, ?_, ?_, ?_, ?_, ?_, ?_⟩
  · rw [lookup_setKey_ne _ _ _ _ (by decide)]
    exact lookup_setKey_self _ _ _
  · exact lookup_setKey_self _ _ _
  · rw [lookup_setKey_ne _ _ _ _ (by decide),
      lookup_setKey_ne _ _ _ _ (by decide)]
    exact lookup_setKey_self _ _ _
  · rw [lookup_setKey_ne _ _ _ _ (by decide)]
    exact lookup_setKey_self _ _ _
  · exact formatHex_length _ 32 (by norm_num) htb'
  · exact formatHex_length _ 16 (by norm_num) hsb'
  · exact formatHex_chars _ 32
  · exact formatHex_chars _ 16

/-- C2 witness: the theorem applied at a concrete recording span with
trace id 1 and span id 2. -/
theorem enriched_ids_match_active_span_witness :
    List.lookup "trace_id"
        (add_trace_info (some (Span.mk (SpanContext.mk 1 2 1) true)) []) =
      some (Value.str (formatHex 1 32)) ∧
    (formatHex 1 32).length = 32 := by
  have h := enriched_ids_match_active_span (Span.mk (SpanContext.mk 1 2 1) true)
    [] rfl (by decide) (by norm_num) (by norm_num)
  exact ⟨h.1, h.2.2.2.2.1⟩

/-- C6: the enrichers only add fields and never remove any — every key
present in the input record is still present after either enricher runs,
for every ambient span state. -/
theorem enrichers_preserve_existing_keys (sp : Option Span) (r : Record)
    (k : String) (hk : k ∈ keys r) :
    k ∈ keys (add_trace_info sp r) ∧ k ∈ keys (add_otel_context sp r) := by
  constructor
  · match sp with
    | none => exact hk
    | some s =>
        by_cases h : s.ctx.trace_id = 0
        · rw [add_trace_info_zero s r h]
          exact hk
        · rw [add_trace_info_active s r h]
          exact mem_keys_setKey_of_mem _ _ _ _
            (mem_keys_setKey_of_mem _ _ _ _ hk)
  · match sp with
    | none => exact hk
    | some s =>
        cases hrec : s.recording with
        | false =>
            rw [add_otel_context_not_recording s r hrec]
            exact hk
        | true =>
            by_cases h : s.ctx.trace_id = 0
            · rw [add_otel_context_zero s r h]
              exact hk
            · rw [add_otel_context_active s r hrec h]
              exact mem_keys_setKey_of_mem _ _ _ _
                (mem_keys_setKey_of_mem _ _ _ _
                  (mem_keys_setKey_of_mem _ _ _ _ hk))

/-- C6 witness: the theorem applied at a concrete record with an `event`
key and a concrete recording span. -/
theorem enrichers_preserve_existing_keys_witness :
    "event" ∈ keys (add_trace_info (some (Span.mk (SpanContext.mk 1 2 1) true))
      [("event", Value.str "hi")]) :=
  (enrichers_preserve_existing_keys
    (some (Span.mk (SpanContext.mk 1 2 1) true))
    [("event", Value.str "hi")] "event" (by simp [keys])).1

/-- C7: only the multi-app variant injects trace flags — `add_trace_info`
never adds a `trace_flags` key (if present in its output it was already in
the input), while `add_otel_context` stores the active span context's raw
`trace_flags` value whenever it enriches. -/
theorem trace_flags_only_in_multi_app_variant (sp : Option Span)
    (r : Record) :
    ("trace_flags" ∈ keys (add_trace_info sp r) →
      "trace_flags" ∈ keys r) ∧
    (∀ s : Span, sp = some s → s.recording = true → s.ctx.trace_id ≠ 0 →
      List.lookup "trace_flags" (add_otel_context sp r) =
        some (Value.num s.ctx.trace_flags)) := by
  constructor
  · intro hmem
    match sp with
    | none => exact hmem
    | some s =>
        by_cases h : s.ctx.trace_id = 0
        · rw [add_trace_info_zero s r h] at hmem
          exact hmem
        · rw [add_trace_info_active s r h] at hmem
          rcases mem_keys_of_mem_keys_setKey _ _ _ _ hmem with h1 | h1
          · exact absurd h1 (by decide)
          · rcases mem_keys_of_mem_keys_setKey _ _ _ _ h1 with h2 | h2
            · exact absurd h2 (by decide)
            · exact h2
  · intro s hsp hrec h
    subst hsp
    rw [add_otel_context_active s r hrec h]
    exact lookup_setKey_self _ _ _

/-- C7 witness: the theorem applied at a concrete recording span with
trace flags 7 and at an input record that already holds `trace_flags`. -/
theorem trace_flags_only_in_multi_app_variant_witness :
    List.lookup "trace_flags"
        (add_otel_context (some (Span.mk (SpanContext.mk 1 2 7) true)) []) =
      some (Value.num 7) :=
  (trace_flags_only_in_multi_app_variant
      (some (Span.mk (SpanContext.mk 1 2 7) true)) []).2
    (Span.mk (SpanContext.mk 1 2 7) true) rfl rfl (by decide)

-- State-passing embedding of the read-only span API used by the enrichers.

/-- The ambient tracing state visible to the enrichers: the current span
maintained by the tracing library. -/
structure TraceState where
  current : Option Span
deriving DecidableEq, Repr

/-- `trace.get_current_span()`: reads the ambient current span. -/
def get_current_span (st : TraceState) : TraceState × Option Span :=
  (st, st.current)

/-- `span.is_recording()`: reads the recording flag of a span. -/
def span_recording_read (st : TraceState) (s : Span) : TraceState × Bool :=
  (st, s.recording)

/-- `span.get_span_context()`: reads the context of a span. -/
def span_context_read (st : TraceState) (s : Span) :
    TraceState × SpanContext :=
  (st, s.ctx)

/-- `add_trace_info` with every span-API call made explicit as an action on
the ambient tracing state, following the source line by line. -/
def add_trace_info_run (st : TraceState) (event_dict : Record) :
    TraceState × Record :=
  let p := get_current_span st
  match p.2 with
  | none => (p.1, event_dict)
  | some s =>
      let q := span_context_read p.1 s
      if q.2.trace_id ≠ 0 then
        (q.1, setKey (setKey event_dict "trace_id"
            (Value.str (formatHex q.2.trace_id 32)))
          "span_id" (Value.str (formatHex q.2.span_id 16)))
      else (q.1, event_dict)

/-- `add_otel_context` with every span-API call made explicit as an action
on the ambient tracing state, following the source line by line. -/
def add_otel_context_run (st : TraceState) (event_dict : Record) :
    TraceState × Record :=
  let p := get_current_span st
  match p.2 with
  | none => (p.1, event_dict)
  | some s =>
      let b := span_recording_read p.1 s
      if b.2 then
        let q := span_context_read b.1 s
        if q.2.trace_id ≠ 0 then
          (q.1, setKey (setKey (setKey event_dict "trace_id"
                (Value.str (formatHex q.2.trace_id 32)))
              "span_id" (Value.str (formatHex q.2.span_id 16)))
            "trace_flags" (Value.num q.2.trace_flags))
        else (q.1, event_dict)
      else (b.1, event_dict)

theorem add_trace_info_idem (sp : Option Span) (r : Record) :
    add_trace_info sp (add_trace_info sp r) = add_trace_info sp r := by
  match sp with
  | none => rfl
  | some s =>
      by_cases h : s.ctx.trace_id = 0
      · rw [add_trace_info_zero s r h, add_trace_info_zero s r h]
      · rw [add_trace_info_active s r h, add_trace_info_active s _ h]
        have h1 : List.lookup "trace_id"
            (setKey (setKey r "trace_id"
                (Value.str (formatHex s.ctx.trace_id 32)))
              "span_id" (Value.str (formatHex s.ctx.span_id 16))) =
            some (Value.str (formatHex s.ctx.trace_id 32)) := by
          rw [lookup_setKey_ne _ _ _ _ (by decide)]
          exact lookup_setKey_self _ _ _
        rw [setKey_of_lookup_eq _ _ _ h1]
        exact setKey_of_lookup_eq _ _ _ (lookup_setKey_self _ _ _)

theorem add_otel_context_idem (sp : Option Span) (r : Record) :
    add_otel_context sp (add_otel_context sp r) = add_otel_context sp r := by
  match sp with
  | none => rfl
  | some s =>
      cases hrec : s.recording with
      | false =>
          rw [add_otel_context_not_recording s r hrec,
            add_otel_context_not_recording s r hrec]
      | true =>
          by_cases h : s.ctx.trace_id = 0
          · rw [add_otel_context_zero s r h, add_otel_context_zero s r h]
          · rw [add_otel_context_active s r hrec h,
              add_otel_context_active s _ hrec h]
            have h1 : List.lookup "trace_id"
                (setKey (setKey (setKey r "trace_id"
                      (Value.str (formatHex s.ctx.trace_id 32)))
                    "span_id" (Value.str (formatHex s.ctx.span_id 16)))
                  "trace_flags" (Value.num s.ctx.trace_flags)) =
                some (Value.str (formatHex s.ctx.trace_id 32)) := by
              rw [lookup_setKey_ne _ _ _ _ (by decide),
                lookup_setKey_ne _ _ _ _ (by decide)]
              exact lookup_setKey_self _ _ _
            have h2 : List.lookup "span_id"
                (setKey (setKey (setKey r "trace_id"
                      (Value.str (formatHex s.ctx.trace_id 32)))
                    "span_id" (Value.str (formatHex s.ctx.span_id 16)))
                  "trace_flags" (Value.num s.ctx.trace_flags)) =
                some (Value.str (formatHex s.ctx.span_id 16)) := by
              rw [lookup_setKey_ne _ _ _ _ (by decide)]
              exact lookup_setKey_self _ _ _
            rw [setKey_of_lookup_eq _ _ _ h1, setKey_of_lookup_eq _ _ _ h2]
            exact setKey_of_lookup_eq _ _ _ (lookup_setKey_self _ _ _)

theorem add_trace_info_run_state (st : TraceState) (r : Record) :
    (add_trace_info_run st r).1 = st ∧
    (add_trace_info_run st r).2 = add_trace_info st.current r := by
  cases hc : st.current with
  | none =>
      simp [add_trace_info_run, get_current_span, span_context_read, hc,
        add_trace_info]
  | some s =>
      by_cases h : s.ctx.trace_id = 0
      · simp [add_trace_info_run, get_current_span, span_context_read, hc,
          add_trace_info, h]
      · simp [add_trace_info_run, get_current_span, span_context_read, hc,
          add_trace_info, h]

theorem add_otel_context_run_state (st : TraceState) (r : Record) :
    (add_otel_context_run st r).1 = st ∧
    (add_otel_context_run st r).2 = add_otel_context st.current r := by
  cases hc : st.current with
  | none =>
      simp [add_otel_context_run, get_current_span, span_recording_read,
        span_context_read, hc, add_otel_context]
  | some s =>
      cases hrec : s.recording with
      | false =>
          simp [add_otel_context_run, get_current_span, span_recording_read,
            span_context_read, hc, add_otel_context, hrec]
      | true =>
          by_cases h : s.ctx.trace_id = 0
          · simp [add_otel_context_run, get_current_span, span_recording_read,
              span_context_read, hc, add_otel_context, hrec, h]
          · simp [add_otel_context_run, get_current_span, span_recording_read,
              span_context_read, hc, add_otel_context, hrec, h]

/-- C5: enrichment is idempotent for a fixed ambient span state — applying
either enricher twice yields the same record as applying it once — and the
enrichers are side-effect-free on the span: run with every span-API call
explicit on the tracing state, they return that state unchanged (they only
read the current span, its recording flag and its context). -/
theorem enrichment_idempotent_and_span_untouched (st : TraceState)
    (sp : Option Span) (r : Record) :
    add_trace_info sp (add_trace_info sp r) = add_trace_info sp r ∧
    add_otel_context sp (add_otel_context sp r) = add_otel_context sp r ∧
    (add_trace_info_run st r).1 = st ∧
    (add_otel_context_run st r).1 = st ∧
    (add_trace_info_run st r).2 = add_trace_info st.current r ∧
    (add_otel_context_run st r).2 = add_otel_context st.current r :=
  ⟨add_trace_info_idem sp r, add_otel_context_idem sp r,
    (add_trace_info_run_state st r).1, (add_otel_context_run_state st r).1,
    (add_trace_info_run_state st r).2, (add_otel_context_run_state st r).2⟩

/-- C10: when a span with non-zero trace id is active, `add_trace_info`
overwrites any caller-supplied `trace_id`/`span_id` values with the span's
values and leaves every other field's value unchanged; when that span is
additionally recording, `add_otel_context` does the same, also overwriting
`trace_flags`. -/
theorem enricher_overwrites_ids_and_keeps_frame (s : Span) (r : Record)
    (h : s.ctx.trace_id ≠ 0) :
    (List.lookup "trace_id" (add_trace_info (some s) r) =
        some (Value.str (formatHex s.ctx.trace_id 32)) ∧
      List.lookup "span_id" (add_trace_info (some s) r) =
        some (Value.str (formatHex s.ctx.span_id 16)) ∧
      ∀ k : String, k ≠ "trace_id" → k ≠ "span_id" →
        List.lookup k (add_trace_info (some s) r) = List.lookup k r) ∧
    (s.recording = true →
      List.lookup "trace_id" (add_otel_context (some s) r) =
        some (Value.str (formatHex s.ctx.trace_id 32)) ∧
      List.lookup "span_id" (add_otel_context (some s) r) =
        some (Value.str (formatHex s.ctx.span_id 16)) ∧
      List.lookup "trace_flags" (add_otel_context (some s) r) =
        some (Value.num s.ctx.trace_flags) ∧
      ∀ k : String, k ≠ "trace_id" → k ≠ "span_id" → k ≠ "trace_flags" →
        List.lookup k (add_otel_context (some s) r) = List.lookup k r) := by
  constructor
  · rw [add_trace_info_active s r h]
    refine ⟨?_, lookup_setKey_self _ _ _, ?_⟩
    · rw [lookup_setKey_ne _ _ _ _ (by decide)]
      exact lookup_setKey_self _ _ _
    · intro k hk1 hk2
      rw [lookup_setKey_ne _ _ _ _ hk2, lookup_setKey_ne _ _ _ _ hk1]
  · intro hrec
    rw [add_otel_context_active s r hrec h]
    refine ⟨?_, ?_, lookup_setKey_self _ _ _, ?_⟩
    · rw [lookup_setKey_ne _ _ _ _ (by decide),
        lookup_setKey_ne _ _ _ _ (by decide)]
      exact lookup_setKey_self _ _ _
    · rw [lookup_setKey_ne _ _ _ _ (by decide)]
      exact lookup_setKey_self _ _ _
    · intro k hk1 hk2 hk3
      rw [lookup_setKey_ne _ _ _ _ hk3, lookup_setKey_ne _ _ _ _ hk2,
        lookup_setKey_ne _ _ _ _ hk1]

/-- C10 witness: the theorem applied at a recording span with trace id 1
and a record whose caller supplied its own `trace_id` and an `event`
field: the caller value is replaced, the `event` value survives. -/
theorem enricher_overwrites_ids_and_keeps_frame_witness :
    List.lookup "trace_id"
        (add_trace_info (some (Span.mk (SpanContext.mk 1 2 3) true))
          [("trace_id", Value.str "caller"), ("event", Value.str "x")]) =
      some (Value.str (formatHex 1 32)) ∧
    List.lookup "event"
        (add_trace_info (some (Span.mk (SpanContext.mk 1 2 3) true))
          [("trace_id", Value.str "caller"), ("event", Value.str "x")]) =
      List.lookup "event"
        [("trace_id", Value.str "caller"), ("event", Value.str "x")] := by
  have hx := enricher_overwrites_ids_and_keeps_frame
    (Span.mk (SpanContext.mk 1 2 3) true)
    [("trace_id", Value.str "caller"), ("event", Value.str "x")] (by decide)
  exact ⟨hx.1.1, hx.1.2.2 "event" (by decide) (by decide)⟩

-- The simulated external-service call of the multi-app application.

/-- OpenTelemetry span status codes used by the source. -/
inductive StatusCode where
  | UNSET
  | OK
  | ERROR
deriving DecidableEq, Repr

/-- FastAPI `HTTPException(status_code=..., detail=...)`. -/
structure HTTPException where
  status_code : Nat
  detail : String
deriving DecidableEq, Repr

/-- The mutable view of a span that `call_external_service` touches:
attributes (`set_attribute`), recorded exception messages
(`record_exception`) and the status (`set_status`). -/
structure MSpan where
  attributes : List (String × Value)
  recorded_exceptions : List String
  status : StatusCode
deriving DecidableEq, Repr

/-- `span.set_attribute(k, v)`. -/
def MSpan.set_attribute (s : MSpan) (k : String) (v : Value) : MSpan :=
  { s with attributes := setKey s.attributes k v }

/-- `span.record_exception(exc)`: appends the exception message to the
span's event list. -/
def MSpan.record_exception (s : MSpan) (msg : String) : MSpan :=
  { s with recorded_exceptions := s.recorded_exceptions ++ [msg] }

/-- `span.set_status(Status(code))`. -/
def MSpan.set_status (s : MSpan) (c : StatusCode) : MSpan :=
  { s with status := c }

/-- The success payload `{"service": service_name, "result":
f"{operation}_completed"}`. -/
structure CallResult where
  service : String
  result : String
deriving DecidableEq, Repr

/-- `call_external_service(service_name, operation)` from
`examples/multi-app-integration/main.py`, with the Python built-in `hash`
passed in as the ambient function `pyhash` (Python string hashing is
process-seeded) and the current span passed explicitly.  Python `%` on a
positive modulus agrees with `Int.emod`. -/
def call_external_service (pyhash : String → Int) (span : MSpan)
    (service_name operation : String) :
    MSpan × Except HTTPException CallResult :=
  let span := span.set_attribute "external.service.name"
    (Value.str service_name)
  let span := span.set_attribute "external.operation" (Value.str operation)
  if pyhash (service_name ++ operation) % 10 = 0 then
    let span := span.record_exception
      (service_name ++ " service temporarily unavailable")
    let span := span.set_status StatusCode.ERROR
    (span, Except.error
      (HTTPException.mk 503 (service_name ++ " service unavailable")))
  else
    (span, Except.ok (CallResult.mk service_name (operation ++ "_completed")))

/-- C8: `call_external_service` raises HTTP 503 with a "service
unavailable" detail exactly when `hash(service_name + operation)` is
divisible by 10, after recording the exception on the span and setting its
status to ERROR; otherwise it returns the success result for that service
and operation and leaves the span status as it was. -/
theorem call_external_service_fails_iff_hash_divisible
    (pyhash : String → Int) (span : MSpan) (service_name operation : String) :
    ((10 : Int) ∣ pyhash (service_name ++ operation) →
      (call_external_service pyhash span service_name operation).2 =
        Except.error
          (HTTPException.mk 503 (service_name ++ " service unavailable")) ∧
      (call_external_service pyhash span service_name operation).1.status =
        StatusCode.ERROR ∧
      (service_name ++ " service temporarily unavailable") ∈
        (call_external_service pyhash span service_name
          operation).1.recorded_exceptions) ∧
    (¬ (10 : Int) ∣ pyhash (service_name ++ operation) →
      (call_external_service pyhash span service_name operation).2 =
        Except.ok (CallResult.mk service_name (operation ++ "_completed")) ∧
      (call_external_service pyhash span service_name operation).1.status =
        span.status) := by
  constructor
  · intro hdvd
    have hmod : pyhash (service_name ++ operation) % 10 = 0 :=
      Int.dvd_iff_emod_eq_zero.mp hdvd
    simp [call_external_service, hmod, MSpan.set_attribute,
      MSpan.record_exception, MSpan.set_status]
  · intro hdvd
    have hmod : ¬ pyhash (service_name ++ operation) % 10 = 0 :=
      fun hh => hdvd (Int.dvd_iff_emod_eq_zero.mpr hh)
    simp [call_external_service, hmod, MSpan.set_attribute,
      MSpan.record_exception, MSpan.set_status]

/-- C8 witness: the theorem applied with a hash function that is constantly
zero, so the injected failure path is taken. -/
theorem call_external_service_fails_iff_hash_divisible_witness :
    (call_external_service (fun _ => (0 : Int))
        (MSpan.mk [] [] StatusCode.UNSET) "unstable-service"
        "risky_operation").2 =
      Except.error (HTTPException.mk 503
        ("unstable-service" ++ " service unavailable")) ∧
    (call_external_service (fun _ => (0 : Int))
        (MSpan.mk [] [] StatusCode.UNSET) "unstable-service"
        "risky_operation").1.status = StatusCode.ERROR := by
  have hx := call_external_service_fails_iff_hash_divisible
    (fun _ => (0 : Int)) (MSpan.mk [] [] StatusCode.UNSET)
    "unstable-service" "risky_operation"
  have hy := hx.1 (dvd_zero 10)
  exact ⟨hy.1, hy.2.1⟩

-- The OTLP export pipeline configuration of the multi-app application.

/-- The keyword arguments the source passes to both batch processors. -/
structure BatchProcessorConfig where
  max_queue_size : Nat
  max_export_batch_size : Nat
  export_timeout_millis : Nat
deriving DecidableEq, Repr

/-- The `BatchSpanProcessor` arguments from the multi-app source. -/
def batch_span_processor_config : BatchProcessorConfig :=
  { max_queue_size := 512
    max_export_batch_size := 128
    export_timeout_millis := 30000 }

/-- The `BatchLogRecordProcessor` arguments from the multi-app source. -/
def batch_log_record_processor_config : BatchProcessorConfig :=
  { max_queue_size := 512
    max_export_batch_size := 128
    export_timeout_millis := 30000 }

/-- `os.getenv("OTEL_EXPORTER_OTLP_ENDPOINT", "http://localhost:4317")`:
the collector endpoint as a function of the environment variable, `none`
meaning the variable is unset. -/
def OTEL_COLLECTOR_ENDPOINT (env : Option String) : String :=
  env.getD "http://localhost:4317"

/-- C9: both OTLP batch processors of the multi-app application are
configured with maximum queue size 512, maximum export batch size 128 and
a 30000 ms export timeout, and the collector endpoint defaults to
`http://localhost:4317` when `OTEL_EXPORTER_OTLP_ENDPOINT` is unset. -/
theorem otlp_pipeline_configuration :
    batch_span_processor_config.max_queue_size = 512 ∧
    batch_span_processor_config.max_export_batch_size = 128 ∧
    batch_span_processor_config.export_timeout_millis = 30000 ∧
    batch_log_record_processor_config.max_queue_size = 512 ∧
    batch_log_record_processor_config.max_export_batch_size = 128 ∧
    batch_log_record_processor_config.export_timeout_millis = 30000 ∧
    OTEL_COLLECTOR_ENDPOINT none = "http://localhost:4317" :=
  ⟨rfl, rfl, rfl, rfl, rfl, rfl, rfl⟩
